import Mathlib

/-!
Verification of the guard classes in `src/app/document_access.h` of the
aseprite repository: `DocumentAccess`, `DocumentReader`, `DocumentWriter`
and `DocumentDestroyer`.

The embedding is a shallow one.  A `Document*` is modelled by `Option Doc`
(`none` is the C++ `NULL` pointer); the boolean results of the primitive
lock calls `Document::lock` and `Document::lockToWrite` are oracle
parameters, because the guard code only observes those booleans.  Every
embedded constructor, destructor or member function additionally returns
the list of primitive calls it performed on the underlying document
(`lock`, `unlock`, `lockToWrite`, `unlockToRead`, `close`, `delete`), so
that theorems can speak about which lock operations happened and in which
order.  A thrown `LockedDocumentException` is an `Except.error`; a failed
`ASSERT` is modelled as `Except.error ()`.
-/

set_option autoImplicit false

namespace DocAccess

/-- A document pointer is modelled by its identity; `none` stands for the
C++ `NULL` pointer. -/
abbrev Doc := Nat

/-- The two lock modes requested through `Document::lock`
(`Document::ReadLock` and `Document::WriteLock`). -/
inductive LockType where
  | readLock
  | writeLock
deriving DecidableEq, Repr

/-- One primitive call performed on the underlying `Document` by the guard
code: `lock`, `unlock`, `lockToWrite`, `unlockToRead`, `close` or
`delete`. -/
inductive Event where
  | lock (t : LockType) (timeout : Int)
  | unlock
  | lockToWrite (timeout : Int)
  | unlockToRead
  | close
  | deleteDoc
deriving DecidableEq, Repr

/-- `app::LockedDocumentException`: the exception thrown whenever a guard
constructor fails to obtain its lock within the timeout.  It carries no
data beyond its fixed message. -/
inductive LockedDocumentException where
  | mk
deriving DecidableEq, Repr

/-- The fixed diagnostic text that the `LockedDocumentException` default
constructor passes to `base::Exception`. -/
def LockedDocumentException.message : String :=
  "Cannot read or write the active document.\nIt is locked by a background task.\nTry again later."

/-- `app::DocumentAccess`: the wrapper that stores the raw `m_document`
pointer and gives pointer-like access to it. -/
structure DocumentAccess where
  m_document : Option Doc
deriving DecidableEq, Repr

/-- `DocumentAccess::DocumentAccess()`: default constructor, stores the
`NULL` pointer. -/
def DocumentAccess.ctorDefault : DocumentAccess := ⟨none⟩

/-- `DocumentAccess::DocumentAccess(const DocumentAccess& copy)`: copy
constructor, copies the raw pointer; it performs no lock call. -/
def DocumentAccess.ctorCopy (copy : DocumentAccess) : DocumentAccess :=
  ⟨copy.m_document⟩

/-- `DocumentAccess::operator->`: `ASSERT(m_document != NULL)` and return
the pointer.  The assertion failure on a `NULL` pointer is the fail-fast
branch, modelled as `Except.error ()`. -/
def DocumentAccess.arrowOp (a : DocumentAccess) : Except Unit Doc :=
  match a.m_document with
  | none => .error ()
  | some d => .ok d

/-- `app::DocumentReader`: scope-bound holder of a reader lock.  Its only
state is the `m_document` pointer inherited from `DocumentAccess`. -/
structure DocumentReader where
  m_document : Option Doc
deriving DecidableEq, Repr

/-- `DocumentReader::DocumentReader()`: default constructor, `NULL`
pointer, no lock call. -/
def DocumentReader.ctorDefault : DocumentReader := ⟨none⟩

/-- `DocumentReader::DocumentReader(Document* document, int timeout)`:
stores the pointer; when it is non-null, calls
`m_document->lock(Document::ReadLock, timeout)` and throws
`LockedDocumentException` when that returns `false`.  `lockOk` is the
boolean returned by the lock call. -/
def DocumentReader.ctorDoc (document : Option Doc) (timeout : Int) (lockOk : Bool) :
    Except LockedDocumentException DocumentReader × List Event :=
  match document with
  | none => (.ok ⟨none⟩, [])
  | some d =>
    if lockOk then (.ok ⟨some d⟩, [.lock .readLock timeout])
    else (.error .mk, [.lock .readLock timeout])

/-- `DocumentReader::DocumentReader(const DocumentReader& copy, int timeout)`:
the explicit duplicating constructor.  It copies the pointer out of `copy`
and then, when the pointer is non-null, performs a fresh
`lock(Document::ReadLock, timeout)` call of its own, throwing on
failure. -/
def DocumentReader.ctorCopyTimeout (copy : DocumentReader) (timeout : Int) (lockOk : Bool) :
    Except LockedDocumentException DocumentReader × List Event :=
  match copy.m_document with
  | none => (.ok ⟨none⟩, [])
  | some d =>
    if lockOk then (.ok ⟨some d⟩, [.lock .readLock timeout])
    else (.error .mk, [.lock .readLock timeout])

/-- The implicitly generated `DocumentReader(const DocumentReader&)` copy
constructor.  `DocumentReader` disables only `operator=` (line 95 of the
header); C++ therefore still generates a copy constructor for it, which
invokes `DocumentAccess::DocumentAccess(const DocumentAccess&)` — copying
the raw `m_document` pointer and performing no lock call at all. -/
def DocumentReader.ctorCopyImplicit (copy : DocumentReader) : DocumentReader × List Event :=
  (⟨copy.m_document⟩, [])

/-- `DocumentReader::~DocumentReader()`: whenever the stored pointer is
non-null, unconditionally calls `m_document->unlock()`. -/
def DocumentReader.dtor (r : DocumentReader) : List Event :=
  match r.m_document with
  | none => []
  | some _ => [.unlock]

/-- `app::DocumentWriter`: scope-bound holder of a writer lock, acquired
either directly or by elevating a reader lock.  `m_from_reader` records
which constructor ran and `m_locked` whether the lock is still held. -/
structure DocumentWriter where
  m_document : Option Doc
  m_from_reader : Bool
  m_locked : Bool
deriving DecidableEq, Repr

/-- `DocumentWriter::DocumentWriter()`: default constructor; `NULL`
pointer, `m_from_reader = false`, `m_locked = false`, no lock call. -/
def DocumentWriter.ctorDefault : DocumentWriter := ⟨none, false, false⟩

/-- `DocumentWriter::DocumentWriter(Document* document, int timeout)`: the
direct-acquisition constructor.  `m_from_reader` is initialised `false`
and `m_locked` `false`; when the pointer is non-null it calls
`m_document->lock(Document::WriteLock, timeout)`, throws
`LockedDocumentException` when that returns `false`, and sets
`m_locked = true` only after the lock call succeeded. -/
def DocumentWriter.ctorDoc (document : Option Doc) (timeout : Int) (lockOk : Bool) :
    Except LockedDocumentException DocumentWriter × List Event :=
  match document with
  | none => (.ok ⟨none, false, false⟩, [])
  | some d =>
    if lockOk then (.ok ⟨some d, false, true⟩, [.lock .writeLock timeout])
    else (.error .mk, [.lock .writeLock timeout])

/-- `DocumentWriter::DocumentWriter(const DocumentReader& document, int timeout)`:
the upgrade constructor that elevates a reader lock.  It copies the
pointer out of the (const, hence unmodified) reader, initialises
`m_from_reader = true` and `m_locked = false`; when the pointer is
non-null it calls `m_document->lockToWrite(timeout)`, throws
`LockedDocumentException` when that returns `false`, and sets
`m_locked = true` only after success.  `lockToWriteOk` is the boolean
returned by `lockToWrite`. -/
def DocumentWriter.ctorFromReader (document : DocumentReader) (timeout : Int)
    (lockToWriteOk : Bool) :
    Except LockedDocumentException DocumentWriter × List Event :=
  match document.m_document with
  | none => (.ok ⟨none, true, false⟩, [])
  | some d =>
    if lockToWriteOk then (.ok ⟨some d, true, true⟩, [.lockToWrite timeout])
    else (.error .mk, [.lockToWrite timeout])

/-- `DocumentWriter::unlockWriter()`: when the pointer is non-null and
`m_locked` holds, calls `unlockToRead()` when `m_from_reader` is set and
`unlock()` otherwise, then clears `m_locked`; in every other case it does
nothing. -/
def DocumentWriter.unlockWriter (w : DocumentWriter) : DocumentWriter × List Event :=
  match w.m_document with
  | none => (w, [])
  | some _ =>
    if w.m_locked then
      ({ w with m_locked := false },
       if w.m_from_reader then [.unlockToRead] else [.unlock])
    else (w, [])

/-- `DocumentWriter::~DocumentWriter()`: just calls `unlockWriter()`; the
events it emits are those of `unlockWriter`. -/
def DocumentWriter.dtor (w : DocumentWriter) : List Event :=
  (w.unlockWriter).2

/-- `app::DocumentDestroyer`: specialisation of `DocumentWriter` used to
destroy the active document.  It adds no state of its own. -/
abbrev DocumentDestroyer := DocumentWriter

/-- `DocumentDestroyer::DocumentDestroyer(Context*, Document*, int)`: the
only constructor; it delegates to the direct
`DocumentWriter(Document*, int)` constructor (so never to the upgrade
constructor).  The `Context*` argument is unused by the body. -/
def DocumentDestroyer.ctor (_context : Nat) (document : Option Doc) (timeout : Int)
    (lockOk : Bool) :
    Except LockedDocumentException DocumentDestroyer × List Event :=
  DocumentWriter.ctorDoc document timeout lockOk

/-- `DocumentDestroyer::destroyDocument()`: `ASSERT(m_document != NULL)`
(fail-fast, modelled as `Except.error ()`), then in order: calls
`m_document->close()`, releases the lock via `unlockWriter()`, deletes the
document, and finally sets `m_document = NULL`. -/
def DocumentDestroyer.destroyDocument (g : DocumentDestroyer) :
    Except Unit (DocumentDestroyer × List Event) :=
  match g.m_document with
  | none => .error ()
  | some _ =>
    let p := DocumentWriter.unlockWriter g
    .ok ({ p.1 with m_document := none },
         [Event.close] ++ p.2 ++ [Event.deleteDoc])

/-! ## Theorems about the claims -/

/-- Claim C1: when an upgrade attempt (constructing a `DocumentWriter` from
an existing `DocumentReader`) fails because `lockToWrite` times out, the
constructor throws `LockedDocumentException`, the only primitive call in
its trace is the `lockToWrite` attempt — no `unlock` and no
`unlockToRead` — so the shared-lock liability of the reader is never
released or altered, and the reader (passed by const reference and left
untouched) still discharges its shared lock normally at destruction. -/
theorem upgrade_timeout_preserves_reader (r : DocumentReader) (d : Doc) (t : Int)
    (hd : r.m_document = some d) :
    (DocumentWriter.ctorFromReader r t false).1 = Except.error .mk ∧
    (DocumentWriter.ctorFromReader r t false).2 = [Event.lockToWrite t] ∧
    Event.unlock ∉ (DocumentWriter.ctorFromReader r t false).2 ∧
    Event.unlockToRead ∉ (DocumentWriter.ctorFromReader r t false).2 ∧
    r.dtor = [Event.unlock] := by
  simp [DocumentWriter.ctorFromReader, DocumentReader.dtor, hd]

/-- Witness for C1 at the concrete reader holding document `0` and
timeout `7`. -/
theorem upgrade_timeout_preserves_reader_witness :
    (DocumentReader.mk (some 0)).m_document = some 0 ∧
    ((DocumentWriter.ctorFromReader ⟨some 0⟩ 7 false).1 = Except.error .mk ∧
     (DocumentWriter.ctorFromReader ⟨some 0⟩ 7 false).2 = [Event.lockToWrite 7] ∧
     Event.unlock ∉ (DocumentWriter.ctorFromReader ⟨some 0⟩ 7 false).2 ∧
     Event.unlockToRead ∉ (DocumentWriter.ctorFromReader ⟨some 0⟩ 7 false).2 ∧
     (DocumentReader.mk (some 0)).dtor = [Event.unlock]) :=
  ⟨by decide, upgrade_timeout_preserves_reader ⟨some 0⟩ 0 7 (by decide)⟩

/-- Claim C3: a `DocumentWriter` that still holds its lock at destruction
releases through `unlockToRead` (the downgrade) when it was built by
upgrading a reader (`m_from_reader = true`), and through the plain
`unlock` — with no downgrade step — when it was acquired directly
(`m_from_reader = false`). -/
theorem dtor_release_path (w : DocumentWriter) (d : Doc)
    (hdoc : w.m_document = some d) (hlock : w.m_locked = true) :
    (w.m_from_reader = true → w.dtor = [Event.unlockToRead]) ∧
    (w.m_from_reader = false → w.dtor = [Event.unlock]) := by
  constructor <;> intro hf <;>
    simp [DocumentWriter.dtor, DocumentWriter.unlockWriter, hdoc, hlock, hf]

/-- Witness for C3 at the concrete upgraded writer on document `0`. -/
theorem dtor_release_path_witness :
    (DocumentWriter.mk (some 0) true true).m_document = some 0 ∧
    (DocumentWriter.mk (some 0) true true).m_locked = true ∧
    (((DocumentWriter.mk (some 0) true true).m_from_reader = true →
        (DocumentWriter.mk (some 0) true true).dtor = [Event.unlockToRead]) ∧
     ((DocumentWriter.mk (some 0) true true).m_from_reader = false →
        (DocumentWriter.mk (some 0) true true).dtor = [Event.unlock])) :=
  ⟨by decide, by decide, dtor_release_path ⟨some 0, true, true⟩ 0 (by decide) (by decide)⟩

/-- Claim C5: explicit early release is idempotent.  After one call to
`unlockWriter` on any writer state, a second `unlockWriter` performs no
further primitive call and leaves the state unchanged, and the destructor
run after that explicit release also performs no further call — the first
release (when there was anything to release) has cleared `m_locked`. -/
theorem unlockWriter_idempotent (w : DocumentWriter) :
    DocumentWriter.unlockWriter (DocumentWriter.unlockWriter w).1
      = ((DocumentWriter.unlockWriter w).1, []) ∧
    DocumentWriter.dtor (DocumentWriter.unlockWriter w).1 = [] := by
  obtain ⟨md, fr, lk⟩ := w
  cases md <;> cases lk <;> simp [DocumentWriter.unlockWriter, DocumentWriter.dtor]

/-- Claim C7: when the direct write-lock acquisition in
`DocumentWriter(Document*, int)` fails, the exception is raised before any
guard state is committed — the result is the error, never a guard with
`m_locked` set — and the trace holds exactly the failed `lock` call, with
no `unlock` or `unlockToRead` ever performed for the attempt. -/
theorem write_open_timeout_no_commit (d : Doc) (t : Int) :
    DocumentWriter.ctorDoc (some d) t false
      = (Except.error .mk, [Event.lock LockType.writeLock t]) ∧
    Event.unlock ∉ (DocumentWriter.ctorDoc (some d) t false).2 ∧
    Event.unlockToRead ∉ (DocumentWriter.ctorDoc (some d) t false).2 := by
  simp [DocumentWriter.ctorDoc]

/-- Claim C10: constructing a reader or writer over the `NULL` document
pointer succeeds with no lock attempt and no error, yields a guard holding
no lock, and destroying that guard performs no unlock call; in general a
guard constructor throws `LockedDocumentException` if and only if the
pointer is non-null and the underlying lock call returned `false`. -/
theorem null_document_guards (document : Option Doc) (t : Int) (ok : Bool) :
    DocumentReader.ctorDoc none t ok = (Except.ok ⟨none⟩, []) ∧
    DocumentWriter.ctorDoc none t ok = (Except.ok ⟨none, false, false⟩, []) ∧
    DocumentReader.dtor ⟨none⟩ = [] ∧
    DocumentWriter.dtor ⟨none, false, false⟩ = [] ∧
    ((DocumentReader.ctorDoc document t ok).1 = Except.error .mk
        ↔ document.isSome = true ∧ ok = false) ∧
    ((DocumentWriter.ctorDoc document t ok).1 = Except.error .mk
        ↔ document.isSome = true ∧ ok = false) := by
  cases document <;> cases ok <;>
    simp [DocumentReader.ctorDoc, DocumentWriter.ctorDoc,
      DocumentReader.dtor, DocumentWriter.dtor, DocumentWriter.unlockWriter]

/-- Claim C2 fails on the code: `DocumentReader` disables only `operator=`,
so C++ generates its copy constructor, which copies the raw pointer via
`DocumentAccess::DocumentAccess(const DocumentAccess&)` with no fresh
`lock` call.  Concretely: a reader opened on document `0` performs one
successful `lock` call; duplicating it through the implicit copy
constructor performs no lock call at all; destroying both guards then
performs two `unlock` calls — `unlock` is called twice though `lock`
succeeded once, so two guards discharged the same single acquisition. -/
theorem implicit_copy_double_unlock :
    DocumentReader.ctorDoc (some 0) 100 true
      = (Except.ok ⟨some 0⟩, [Event.lock LockType.readLock 100]) ∧
    DocumentReader.ctorCopyImplicit ⟨some 0⟩ = (⟨some 0⟩, []) ∧
    (DocumentReader.ctorCopyImplicit ⟨some 0⟩).2.count (Event.lock LockType.readLock 100) = 0 ∧
    DocumentReader.dtor (DocumentReader.ctorCopyImplicit ⟨some 0⟩).1
        ++ DocumentReader.dtor ⟨some 0⟩
      = [Event.unlock, Event.unlock] :=
  ⟨rfl, rfl, rfl, rfl⟩

/-- Claim C4: on a `DocumentDestroyer` successfully opened over a non-null
document, `destroyDocument` performs, in order, `close` (while the
exclusive lock is still held), exactly one `unlock`, and the `delete` of
the document; it then nulls `m_document`, so the subsequent destructor of
the guard performs no further release.  Across `destroyDocument` plus
destruction, `close` and `unlock` each occur exactly once. -/
theorem destroyDocument_consume (c : Nat) (d : Doc) (t : Int)
    (w : DocumentDestroyer) (es : List Event)
    (h : DocumentDestroyer.ctor c (some d) t true = (Except.ok w, es)) :
    DocumentDestroyer.destroyDocument w
      = Except.ok (⟨none, false, false⟩, [Event.close, Event.unlock, Event.deleteDoc]) ∧
    DocumentWriter.dtor (⟨none, false, false⟩ : DocumentWriter) = [] := by
  have hw : w = ⟨some d, false, true⟩ := by
    simpa [DocumentDestroyer.ctor, DocumentWriter.ctorDoc, eq_comm] using
      congrArg (fun p => p.1) h
  subst hw
  simp [DocumentDestroyer.destroyDocument, DocumentWriter.unlockWriter,
    DocumentWriter.dtor]

/-- Witness for C4 at context `0`, document `0`, timeout `50`. -/
theorem destroyDocument_consume_witness :
    DocumentDestroyer.ctor 0 (some 0) 50 true
        = (Except.ok ⟨some 0, false, true⟩, [Event.lock LockType.writeLock 50]) ∧
    (DocumentDestroyer.destroyDocument ⟨some 0, false, true⟩
        = Except.ok (⟨none, false, false⟩, [Event.close, Event.unlock, Event.deleteDoc]) ∧
     DocumentWriter.dtor (⟨none, false, false⟩ : DocumentWriter) = []) :=
  ⟨rfl,
   destroyDocument_consume 0 0 50 ⟨some 0, false, true⟩
     [Event.lock LockType.writeLock 50] rfl⟩

/-- Claim C6: every `DocumentDestroyer` is built through its single
constructor, which delegates to the direct `DocumentWriter(Document*, int)`
path — never to the upgrade constructor — so whenever construction
succeeds the guard has `m_from_reader = false` and its release path never
performs the downgrade `unlockToRead`. -/
theorem destroyer_never_from_upgrade (c : Nat) (document : Option Doc) (t : Int)
    (ok : Bool) (w : DocumentDestroyer) (es : List Event)
    (h : DocumentDestroyer.ctor c document t ok = (Except.ok w, es)) :
    w.m_from_reader = false ∧ Event.unlockToRead ∉ DocumentWriter.dtor w := by
  have hw : Except.ok w = (DocumentDestroyer.ctor c document t ok).1 := by
    rw [h]
  cases document with
  | none =>
    simp [DocumentDestroyer.ctor, DocumentWriter.ctorDoc] at hw
    subst hw
    simp [DocumentWriter.dtor, DocumentWriter.unlockWriter]
  | some d =>
    cases ok with
    | false => simp [DocumentDestroyer.ctor, DocumentWriter.ctorDoc] at hw
    | true =>
      simp [DocumentDestroyer.ctor, DocumentWriter.ctorDoc] at hw
      subst hw
      simp [DocumentWriter.dtor, DocumentWriter.unlockWriter]

/-- Witness for C6 at context `0`, document `0`, timeout `50`,
successful lock. -/
theorem destroyer_never_from_upgrade_witness :
    DocumentDestroyer.ctor 0 (some 0) 50 true
        = (Except.ok ⟨some 0, false, true⟩, [Event.lock LockType.writeLock 50]) ∧
    ((DocumentWriter.mk (some 0) false true).m_from_reader = false ∧
     Event.unlockToRead ∉ DocumentWriter.dtor ⟨some 0, false, true⟩) :=
  ⟨rfl,
   destroyer_never_from_upgrade 0 (some 0) 50 true ⟨some 0, false, true⟩
     [Event.lock LockType.writeLock 50] rfl⟩

/-- Claim C8 fails on the code as frozen: the diagnostic text carried by
`LockedDocumentException` is not the string quoted in the claim. -/
theorem lock_error_message_cex :
    LockedDocumentException.message
      ≠ "resource is locked by a background task; try again later" := by
  decide

/-- Claim C8 amended: every lock-acquisition failure in the three throwing
constructors surfaces as the single distinguished value
`LockedDocumentException`, and that exception carries the fixed diagnostic
message "Cannot read or write the active document.\nIt is locked by a
background task.\nTry again later.". -/
theorem lock_error_single_value_and_message (d : Doc) (t : Int) :
    LockedDocumentException.message
      = "Cannot read or write the active document.\nIt is locked by a background task.\nTry again later." ∧
    (DocumentReader.ctorDoc (some d) t false).1 = Except.error .mk ∧
    (DocumentReader.ctorCopyTimeout ⟨some d⟩ t false).1 = Except.error .mk ∧
    (DocumentWriter.ctorDoc (some d) t false).1 = Except.error .mk ∧
    (DocumentWriter.ctorFromReader ⟨some d⟩ t false).1 = Except.error .mk := by
  refine ⟨rfl, ?_, ?_, ?_, ?_⟩ <;>
    simp [DocumentReader.ctorDoc, DocumentReader.ctorCopyTimeout,
      DocumentWriter.ctorDoc, DocumentWriter.ctorFromReader]

/-- Claim C9: dereferencing a default-constructed (unopened) guard through
`operator->` hits the fail-fast `ASSERT(m_document != NULL)` branch
(modelled as the error), while under the precondition that the guard holds
a non-null document — as any successfully opened guard does — the
assertion branch is unreachable and the pointer is returned. -/
theorem arrow_assert (a : DocumentAccess) (d : Doc) (h : a.m_document = some d) :
    DocumentAccess.arrowOp DocumentAccess.ctorDefault = Except.error () ∧
    a.arrowOp = Except.ok d := by
  refine ⟨rfl, ?_⟩
  simp [DocumentAccess.arrowOp, h]

/-- Witness for C9 at the guard holding document `0`. -/
theorem arrow_assert_witness :
    (DocumentAccess.mk (some 0)).m_document = some 0 ∧
    (DocumentAccess.arrowOp DocumentAccess.ctorDefault = Except.error () ∧
     (DocumentAccess.mk (some 0)).arrowOp = Except.ok 0) :=
  ⟨by decide, arrow_assert ⟨some 0⟩ 0 (by decide)⟩

end DocAccess
